import Mathlib

/-
Verification of the coordinator core (pkg/coordinator: quorum.go and the
issuance coordinator) against its natural-language specification.

Shallow embedding conventions:
* 32-byte identifiers (milestone IDs, block IDs) are abstracted as natural
  numbers; the zero value 0 stands for the empty (genesis/null) identifier,
  matching iotago.MilestoneID{} and iotago.EmptyBlockID().
* uint32 arithmetic is modelled on Nat with an explicit reduction modulo 2^32.
* injected callbacks (merkle-root computation, send-block, signer, migrator,
  treasury fetch, back-pressure predicates) are oracles supplied through an
  environment record: one field per callback holding the value the callback
  returns during the modelled call.
* the filesystem is reduced to the two paths the coordinator touches:
  the state file and the state file with the "_old" suffix.
-/

namespace InxCoordinator

/-- Pair of merkle roots calculated by whiteflag confirmation
(source: MilestoneMerkleRoots, quorum.go). Digests abstracted as Nat. -/
structure MilestoneMerkleRoots where
  InclusionMerkleRoot : Nat
  AppliedMerkleRoot : Nat
deriving DecidableEq, Repr

/-- Info of the latest milestone the connected node knows
(source: LatestMilestoneInfo). -/
structure LatestMilestoneInfo where
  Index : Nat
  Timestamp : Nat
  MilestoneID : Nat
deriving DecidableEq, Repr

/-- Latest treasury output (source: LatestTreasuryOutput). -/
structure LatestTreasuryOutput where
  MilestoneID : Nat
  Amount : Nat
deriving DecidableEq, Repr

/-- Durable coordinator state. The four fields are exactly the ones assigned
in createAndSendMilestone (source lines 661-664) and read back by InitState;
the struct itself lives in a repository file outside src, its fields follow
the source assignments and spec section 3. -/
structure State where
  LatestMilestoneIndex : Nat
  LatestMilestoneID : Nat
  LatestMilestoneBlockID : Nat
  LatestMilestoneTime : Nat
deriving DecidableEq, Repr

/-- Errors produced by the coordinator core. Each constructor corresponds to
one error return site in the source. -/
inductive CooError
  | quorumMismatch
  | quorumNoAnswer
  | merkleRootFailed
  | migratorPersistPreFailed
  | treasuryFetchFailed
  | createMilestoneFailed
  | milestoneIDFailed
  | sendMilestoneFailed
  | migratorPersistPostFailed
  | writeStateFailed
  | createCheckpointFailed
  | sendCheckpointFailed
  | noTipsGiven
  | nodeNotSynced
  | nodeLoadTooHigh
  | networkBootstrapped
  | previousMilestoneMismatch
  | previousMilestoneGenesis
  | stateFileNotFound
  | latestIndexMismatch
  | migratorWithoutTreasury
deriving DecidableEq, Repr

/-- Classification of each error as critical (true) or soft (false), read off
from the common.CriticalError / common.SoftError wrappers at the corresponding
return sites in the source. ErrNoTipsGiven is returned unwrapped by
IssueCheckpoint, hence not critical. -/
def CooError.isCritical : CooError → Bool
  | .quorumMismatch => true
  | .quorumNoAnswer => false
  | .merkleRootFailed => true
  | .migratorPersistPreFailed => true
  | .treasuryFetchFailed => true
  | .createMilestoneFailed => true
  | .milestoneIDFailed => true
  | .sendMilestoneFailed => true
  | .migratorPersistPostFailed => true
  | .writeStateFailed => true
  | .createCheckpointFailed => false
  | .sendCheckpointFailed => false
  | .noTipsGiven => false
  | .nodeNotSynced => false
  | .nodeLoadTooHigh => false
  | .networkBootstrapped => true
  | .previousMilestoneMismatch => true
  | .previousMilestoneGenesis => true
  | .stateFileNotFound => true
  | .latestIndexMismatch => true
  | .migratorWithoutTreasury => true

/-- Events triggered by the coordinator (source: Events). SoftError is never
triggered inside the embedded source file and is therefore omitted. -/
inductive Event
  | issuedCheckpointBlock (checkpointIndex chunkIndex checkpointsNumber blockID : Nat)
  | issuedMilestone (index milestoneID blockID : Nat)
  | quorumFinished (err : Option CooError)
deriving DecidableEq, Repr

/-- Behaviour of one quorum client during one round: it either returns an
error before the deadline, never answers within the deadline, or replies
with the merkle roots it computed. -/
inductive ClientOutcome
  | clientError
  | clientTimeout
  | reply (roots : MilestoneMerkleRoots)
deriving DecidableEq, Repr

/-- Reduction modulo 2^32, the uint32 machine arithmetic of milestone
indices and timestamps. -/
def u32 (n : Nat) : Nat := n % 4294967296

/-- One quorum group (source: checkMerkleTreeHashQuorumGroup, quorum.go
lines 114-197). The concurrent receive loop is embedded as a fold over the
delivered client outcomes: errors of single nodes are ignored, a reply with
merkle roots different from the local ones immediately yields the critical
mismatch error, a matching reply increments the valid counter, and clients
that time out deliver nothing before the deadline ends the loop. If the loop
ends with zero valid results the group emits the soft no-answer error. The
group outcome is independent of the delivery order, so the list order is
immaterial. -/
def checkMerkleTreeHashQuorumGroup (cooMerkleProof : MilestoneMerkleRoots) :
    List ClientOutcome → Nat → Option CooError
  | [], validResults => if validResults = 0 then some .quorumNoAnswer else none
  | .clientError :: rest, validResults =>
      checkMerkleTreeHashQuorumGroup cooMerkleProof rest validResults
  | .clientTimeout :: rest, validResults =>
      checkMerkleTreeHashQuorumGroup cooMerkleProof rest validResults
  | .reply r :: rest, validResults =>
      if cooMerkleProof.AppliedMerkleRoot ≠ r.AppliedMerkleRoot ∨
         cooMerkleProof.InclusionMerkleRoot ≠ r.InclusionMerkleRoot then
        some .quorumMismatch
      else
        checkMerkleTreeHashQuorumGroup cooMerkleProof rest (validResults + 1)

/-- Full quorum round (source: checkMerkleTreeHash, quorum.go lines 199-240).
Every group runs concurrently and sends its error, if any, on one shared
unbuffered error channel; the outer select returns the first error received,
and nil once all groups have finished without sending an error (a group
blocked on sending keeps the done channel from closing, so an emitted error
is never missed). Which group's error arrives first is decided by the
scheduler — Go map iteration over the groups and goroutine interleaving are
both nondeterministic — so the embedding takes the groups in the order in
which their error sends would reach the channel: the list order is the
schedule parameter, and the round's result is the first error in that order,
if any. -/
def checkMerkleTreeHash (cooMerkleProof : MilestoneMerkleRoots)
    (groups : List (List ClientOutcome)) : Option CooError :=
  (groups.filterMap
    (fun g => checkMerkleTreeHashQuorumGroup cooMerkleProof g 0)).head?

/-- Number of replies (delivered whiteflag responses) among the outcomes of
one quorum group; used to characterize the valid-result counter. -/
def countReplies (g : List ClientOutcome) : Nat :=
  g.countP fun c => match c with
    | .reply _ => true
    | _ => false

/-- Adjacent-duplicate removal on a sorted list, the second phase of
iotago BlockIDs.RemoveDupsAndSort. -/
def removeAdjacentDups : List Nat → List Nat
  | [] => []
  | [a] => [a]
  | a :: b :: rest =>
      if a = b then removeAdjacentDups (b :: rest)
      else a :: removeAdjacentDups (b :: rest)

/-- Canonicalization of a parent list (iotago BlockIDs.RemoveDupsAndSort):
sort by the identifier order, then drop adjacent duplicates. -/
def removeDupsAndSort (ids : List Nat) : List Nat :=
  removeAdjacentDups (List.insertionSort (· ≤ ·) ids)

/-- Coordinator record (source: Coordinator). The injected callbacks are kept
only as presence flags here; their per-call return values live in Env. In the
source the state pointer is nil until InitState runs; issuance operations are
only ever invoked on an initialized coordinator, so the state field is kept
plain. -/
structure Coordinator where
  state : State
  bootstrapped : Bool
  quorumEnabled : Bool
  migratorConfigured : Bool
  treasuryConfigured : Bool
deriving DecidableEq, Repr

/-- Per-call oracle for every injected callback and external subsystem: each
field holds the value the corresponding callback returns when invoked during
the modelled call. none models a Go error return; checkpoint oracles are
indexed by the chunk counter of the issuance loop. -/
structure Env where
  now : Nat
  isNodeSynced : Bool
  backpressure : List Bool
  merkleRootFunc : Nat → Nat → List Nat → Nat → Option MilestoneMerkleRoots
  quorumGroups : List (List ClientOutcome)
  receipt : Option Nat
  persistPreOk : Bool
  treasury : Option LatestTreasuryOutput
  createMilestoneOk : Bool
  milestoneID : Option Nat
  sendMilestone : Option Nat
  persistPostOk : Bool
  writeOk : Bool
  createCheckpointOk : Nat → Bool
  sendCheckpoint : Nat → Option Nat

/-- Filesystem restricted to the two paths the coordinator writes: the state
file and its "_old" sibling. A file is a decoded State together with the
permission bits it was written with (JSON encode/decode is the identity of
this embedding). -/
structure FS where
  stateFile : Option (State × Nat)
  oldFile : Option (State × Nat)
deriving DecidableEq, Repr

/-- Permission bits passed to ioutils.WriteJSONToFile for the state file
(source line 666): octal 660. -/
def stateFilePerm : Nat := 0o660

/-- Rename of the state file to the "_old" path before broadcasting
(source line 645); a missing state file is tolerated (os.IsNotExist). -/
def renameStateFileToOld (fs : FS) : FS :=
  match fs.stateFile with
  | some c => { stateFile := none, oldFile := some c }
  | none => fs

/-- Write of the fresh state file (source line 666). -/
def writeStateFile (fs : FS) (s : State) : FS :=
  { fs with stateFile := some (s, stateFilePerm) }

/-- Evaluation of the registered back-pressure predicates (source:
checkBackPressureFunctions): true as soon as any predicate fires. The list
holds the values the registered predicates return during this call. -/
def checkBackPressureFunctions (env : Env) : Bool :=
  env.backpressure.any id

/-- Result of one createAndSendMilestone call: the error (none on success),
the coordinator and filesystem after the call, and the events triggered. -/
structure MilestoneCallResult where
  err : Option CooError
  coo : Coordinator
  fs : FS
  events : List Event
deriving Repr

/-- Tail of createAndSendMilestone after the quorum step succeeded (source
lines 610-672): if the migrator is configured and has a receipt, persist
migrator state pre-send and fetch the treasury output (both critical on
failure; the treasury transaction built from the fetched output is embedded
in the receipt and has no effect on coordinator state, so it is not tracked);
assemble and sign the milestone and compute its ID (critical on failure; the
assembler lives outside src and is abstracted by the createMilestoneOk and
milestoneID oracles); rename the state file to the "_old" path; broadcast
(critical on failure); persist migrator state post-send (critical on
failure); overwrite the in-memory state with the new index, milestone ID,
block ID and timestamp; write the state file (critical on failure); trigger
IssuedMilestone. evs are the events already triggered by the quorum step. -/
def createAndSendMilestoneTail (coo : Coordinator) (env : Env) (fs : FS)
    (newMilestoneIndex : Nat) (evs : List Event) : MilestoneCallResult :=
  -- receipt: the migrator receipt, fetched only when the migrator service is
  -- configured; spelled out at each use to keep the term rewrite-friendly
  if (if coo.migratorConfigured then env.receipt else none).isSome ∧
      env.persistPreOk = false then
    ⟨some .migratorPersistPreFailed, coo, fs, evs⟩
  else if (if coo.migratorConfigured then env.receipt else none).isSome ∧
      env.treasury = none then
    ⟨some .treasuryFetchFailed, coo, fs, evs⟩
  else if env.createMilestoneOk = false then
    ⟨some .createMilestoneFailed, coo, fs, evs⟩
  else
    match env.milestoneID with
    | none => ⟨some .milestoneIDFailed, coo, fs, evs⟩
    | some milestoneID =>
      match env.sendMilestone with
      | none => ⟨some .sendMilestoneFailed, coo, renameStateFileToOld fs, evs⟩
      | some latestMilestoneBlockID =>
        if (if coo.migratorConfigured then env.receipt else none).isSome ∧
            env.persistPostOk = false then
          ⟨some .migratorPersistPostFailed, coo, renameStateFileToOld fs, evs⟩
        else
          if env.writeOk = false then
            ⟨some .writeStateFailed,
             { coo with state := ⟨newMilestoneIndex, milestoneID,
                 latestMilestoneBlockID, env.now⟩ },
             renameStateFileToOld fs, evs⟩
          else
            ⟨none,
             { coo with state := ⟨newMilestoneIndex, milestoneID,
                 latestMilestoneBlockID, env.now⟩ },
             writeStateFile (renameStateFileToOld fs)
               ⟨newMilestoneIndex, milestoneID, latestMilestoneBlockID, env.now⟩,
             evs ++ [Event.issuedMilestone newMilestoneIndex milestoneID
               latestMilestoneBlockID]⟩

/-- Core milestone pipeline (source: createAndSendMilestone, lines 574-673).
Steps in source order: canonicalize parents; fix one timestamp (the now
oracle), used for both the merkle computation and the emitted record; compute
the merkle roots (critical on failure); if quorum is configured run the round
and trigger QuorumFinished, returning the quorum error as classified; then
continue with createAndSendMilestoneTail. -/
def createAndSendMilestone (coo : Coordinator) (env : Env) (fs : FS)
    (parents0 : List Nat) (newMilestoneIndex : Nat)
    (previousMilestoneID : Nat) : MilestoneCallResult :=
  -- the canonicalized parents and the uint32 timestamp taken from the single
  -- newMilestoneTimestamp are fed to the merkle computation; the same
  -- timestamp reappears in the state the tail persists
  match env.merkleRootFunc newMilestoneIndex (u32 env.now)
      (removeDupsAndSort parents0) previousMilestoneID with
  | none => ⟨some .merkleRootFailed, coo, fs, []⟩
  | some merkleProof =>
    -- quorumErr: the quorum round outcome, none when quorum is not
    -- configured; QuorumFinished fires exactly when quorum is configured
    match (if coo.quorumEnabled then
        checkMerkleTreeHash merkleProof env.quorumGroups else none) with
    | some e => ⟨some e, coo, fs,
        if coo.quorumEnabled then [Event.quorumFinished (some e)] else []⟩
    | none => createAndSendMilestoneTail coo env fs newMilestoneIndex
        (if coo.quorumEnabled then [Event.quorumFinished none] else [])

/-- Result of a public issuance operation: the returned block ID or error,
the coordinator and filesystem after the call, and the events triggered. -/
structure IssueResult where
  res : Except CooError Nat
  coo : Coordinator
  fs : FS
  events : List Event
deriving Repr

/-- Issuance of the next milestone (source: IssueMilestone, lines 756-778):
gate on sync, gate on back pressure, then delegate to createAndSendMilestone
with index LatestMilestoneIndex+1 (uint32) and the latest milestone ID;
on success return the new LatestMilestoneBlockID. -/
def IssueMilestone (coo : Coordinator) (env : Env) (fs : FS)
    (parents : List Nat) : IssueResult :=
  if env.isNodeSynced = false then ⟨.error .nodeNotSynced, coo, fs, []⟩
  else if checkBackPressureFunctions env then
    ⟨.error .nodeLoadTooHigh, coo, fs, []⟩
  else
    match createAndSendMilestone coo env fs parents
        (u32 (coo.state.LatestMilestoneIndex + 1)) coo.state.LatestMilestoneID with
    | ⟨some e, coo1, fs1, evs⟩ => ⟨.error e, coo1, fs1, evs⟩
    | ⟨none, coo1, fs1, evs⟩ =>
        ⟨.ok coo1.state.LatestMilestoneBlockID, coo1, fs1, evs⟩

/-- Bootstrap (source lines 677-695): if not yet bootstrapped, issue the
first milestone with the single parent LatestMilestoneBlockID, the index
LatestMilestoneIndex+1 (uint32) and the previous ID LatestMilestoneID, then
mark the coordinator bootstrapped; errors are re-wrapped critical in the
source and carried through here unchanged. Once bootstrapped the call is a
no-op returning the last milestone block ID. -/
def Bootstrap (coo : Coordinator) (env : Env) (fs : FS) : IssueResult :=
  if coo.bootstrapped = false then
    match createAndSendMilestone coo env fs [coo.state.LatestMilestoneBlockID]
        (u32 (coo.state.LatestMilestoneIndex + 1)) coo.state.LatestMilestoneID with
    | ⟨some e, coo1, fs1, evs⟩ => ⟨.error e, coo1, fs1, evs⟩
    | ⟨none, coo1, fs1, evs⟩ => ⟨.ok coo1.state.LatestMilestoneBlockID,
        { coo1 with bootstrapped := true }, fs1, evs⟩
  else ⟨.ok coo.state.LatestMilestoneBlockID, coo, fs, []⟩

/-- Result of IssueCheckpoint: the returned block ID or error, the checkpoint
records built (modelled from the spec: createCheckpoint, the Checkpoint
Assembler of spec section 4.4, lives outside src and is modelled as producing
a record that is exactly its parent list), and the events triggered. -/
structure CheckpointResult where
  res : Except CooError Nat
  records : List (List Nat)
  events : List Event
deriving Repr

/-- Chunk at position i of the checkpoint issuance loop: the slice
tips[7i : min(7i+7, len(tips))] of source lines 725-733. -/
def chunkAt (tips : List Nat) (i : Nat) : List Nat :=
  (tips.drop (7 * i)).take 7

/-- Body of the checkpoint issuance loop (source lines 724-749), by recursion
on the number of remaining iterations; i is the loop counter and last the
current chain seed. Each iteration canonicalizes the seed prepended to the
chunk, builds the record (createCheckpointOk oracle; failure is wrapped soft),
broadcasts it (sendCheckpoint oracle; failure is wrapped soft), updates the
seed to the returned block ID and triggers IssuedCheckpointBlock. -/
def issueCheckpointChunks (env : Env) (tips : List Nat)
    (checkpointIndex checkpointsNumber : Nat) :
    Nat → Nat → Nat → CheckpointResult
  | 0, _, last => ⟨.ok last, [], []⟩
  | remaining + 1, i, last =>
    if env.createCheckpointOk i = false then
      ⟨.error .createCheckpointFailed, [], []⟩
    else
      match env.sendCheckpoint i with
      | none => ⟨.error .sendCheckpointFailed,
          [removeDupsAndSort (last :: chunkAt tips i)], []⟩
      | some blockID =>
        match issueCheckpointChunks env tips checkpointIndex
            checkpointsNumber remaining (i + 1) blockID with
        | ⟨res, records, events⟩ =>
          ⟨res, removeDupsAndSort (last :: chunkAt tips i) :: records,
            Event.issuedCheckpointBlock checkpointIndex i checkpointsNumber
              blockID :: events⟩

/-- Issuance of a checkpoint batch (source: IssueCheckpoint, lines 701-752):
empty tips return ErrNoTipsGiven; gate on sync and back pressure; partition
the tips into ceil(len/7) chunks of at most 7 (at most 8 parents per block,
one slot reserved for the previous checkpoint) and run the issuance loop. -/
def IssueCheckpoint (coo : Coordinator) (env : Env) (checkpointIndex : Nat)
    (lastCheckpointBlockID : Nat) (tips : List Nat) : CheckpointResult :=
  if tips.length = 0 then ⟨.error .noTipsGiven, [], []⟩
  else if env.isNodeSynced = false then ⟨.error .nodeNotSynced, [], []⟩
  else if checkBackPressureFunctions env then
    ⟨.error .nodeLoadTooHigh, [], []⟩
  else
    -- checkpointsNumber = ceil(len(tips)/7), computed via float math.Ceil in
    -- the source, exact on Nat as (len + 6) / 7
    issueCheckpointChunks env tips checkpointIndex ((tips.length + 6) / 7)
      ((tips.length + 6) / 7) 0 lastCheckpointBlockID

/-- Normalization of the bootstrap start index (source lines 517-520):
a zero start index means "start with milestone 1 at least". -/
def normalizeStartIndex (startIndex : Nat) : Nat :=
  if startIndex = 0 then 1 else startIndex

/-- Startup state initialization (source: InitState, lines 507-570). With
bootstrap: the state file must be absent, a zero start index is normalized to
1, the node-observed index must equal startIndex-1, a start other than 1
demands a non-genesis observed milestone ID, and the seeded state carries
index startIndex-1, the observed ID (or the empty ID at start 1), the empty
block ID and the current time; the coordinator is left not bootstrapped.
Without bootstrap: the state file must exist, its index must match the
node-observed index, and the coordinator becomes bootstrapped. -/
def InitState (coo : Coordinator) (fs : FS) (bootstrap : Bool)
    (startIndex0 : Nat) (latestMilestone : LatestMilestoneInfo)
    (now : Nat) : Except CooError Coordinator :=
  if bootstrap then
    if fs.stateFile.isSome then .error .networkBootstrapped
    else if latestMilestone.Index ≠ normalizeStartIndex startIndex0 - 1 then
      .error .previousMilestoneMismatch
    else if normalizeStartIndex startIndex0 ≠ 1 ∧
        latestMilestone.MilestoneID = 0 then
      .error .previousMilestoneGenesis
    else
      .ok { coo with
            state := { LatestMilestoneIndex := normalizeStartIndex startIndex0 - 1,
                       LatestMilestoneID :=
                         if normalizeStartIndex startIndex0 ≠ 1 then
                           latestMilestone.MilestoneID
                         else 0,
                       LatestMilestoneBlockID := 0,
                       LatestMilestoneTime := now },
            bootstrapped := false }
  else
    match fs.stateFile with
    | none => .error .stateFileNotFound
    | some (s, _) =>
      if latestMilestone.Index ≠ s.LatestMilestoneIndex then
        .error .latestIndexMismatch
      else .ok { coo with state := s, bootstrapped := true }

/-- Constructor of the coordinator (source: New, lines 465-503). The only
validation: a configured migrator service without a treasury output fetch
function is a critical error. All other collaborators are stored as given. -/
def New (migratorConfigured treasuryConfigured quorumEnabled : Bool) :
    Except CooError Coordinator :=
  if migratorConfigured = true ∧ treasuryConfigured = false then
    .error .migratorWithoutTreasury
  else
    .ok { state := { LatestMilestoneIndex := 0, LatestMilestoneID := 0,
                     LatestMilestoneBlockID := 0, LatestMilestoneTime := 0 },
          bootstrapped := false,
          quorumEnabled := quorumEnabled,
          migratorConfigured := migratorConfigured,
          treasuryConfigured := treasuryConfigured }

/-! Concrete fixtures used by witnesses and counterexamples. -/

/-- Locally computed merkle roots of the worked examples. -/
def roots0 : MilestoneMerkleRoots := ⟨1, 2⟩

/-- Merkle roots differing from roots0 in the applied root. -/
def roots1 : MilestoneMerkleRoots := ⟨1, 3⟩

/-- Environment of a fully successful run: every callback succeeds, the
signer yields milestone ID 7, the broadcast yields block ID 8, checkpoint
broadcasts yield block IDs 1000, 1001, and so on. -/
def envBase : Env :=
  { now := 100, isNodeSynced := true, backpressure := [],
    merkleRootFunc := fun _ _ _ _ => some roots0,
    quorumGroups := [], receipt := none, persistPreOk := true,
    treasury := none, createMilestoneOk := true, milestoneID := some 7,
    sendMilestone := some 8, persistPostOk := true, writeOk := true,
    createCheckpointOk := fun _ => true,
    sendCheckpoint := fun i => some (1000 + i) }

/-- Prior coordinator state of the worked examples. -/
def stBase : State := ⟨5, 11, 12, 50⟩

/-- Bootstrapped coordinator without quorum or migrator. -/
def cooBase : Coordinator :=
  { state := stBase, bootstrapped := true, quorumEnabled := false,
    migratorConfigured := false, treasuryConfigured := true }

/-- Filesystem holding the persisted prior state. -/
def fsBase : FS := { stateFile := some (stBase, stateFilePerm), oldFile := none }

/-! Helper lemmas about the milestone pipeline. -/

/-- Shape of a successful createAndSendMilestoneTail run: the signer and the
broadcast must have succeeded, the post state is built from the new index,
the milestone ID, the broadcast block ID and the fixed timestamp, and the
state file is renamed away and rewritten with exactly the post state. -/
lemma createAndSendMilestoneTail_ok (coo : Coordinator) (env : Env) (fs : FS)
    (newIdx : Nat) (evs : List Event)
    (h : (createAndSendMilestoneTail coo env fs newIdx evs).err = none) :
    ∃ msID bid,
      env.milestoneID = some msID ∧ env.sendMilestone = some bid ∧
      createAndSendMilestoneTail coo env fs newIdx evs =
        ⟨none,
         { coo with state := ⟨newIdx, msID, bid, env.now⟩ },
         writeStateFile (renameStateFileToOld fs) ⟨newIdx, msID, bid, env.now⟩,
         evs ++ [Event.issuedMilestone newIdx msID bid]⟩ := by
  unfold createAndSendMilestoneTail at h ⊢
  by_cases h1 : (if coo.migratorConfigured then env.receipt else none).isSome ∧
      env.persistPreOk = false
  · rw [if_pos h1] at h; simp at h
  · rw [if_neg h1] at h ⊢
    by_cases h2 : (if coo.migratorConfigured then env.receipt else none).isSome ∧
        env.treasury = none
    · rw [if_pos h2] at h; simp at h
    · rw [if_neg h2] at h ⊢
      by_cases h3 : env.createMilestoneOk = false
      · rw [if_pos h3] at h; simp at h
      · rw [if_neg h3] at h ⊢
        cases hid : env.milestoneID with
        | none => rw [hid] at h; simp at h
        | some msID =>
          rw [hid] at h
          dsimp only at h ⊢
          cases hsend : env.sendMilestone with
          | none => rw [hsend] at h; simp at h
          | some bid =>
            rw [hsend] at h
            dsimp only at h ⊢
            by_cases h4 : (if coo.migratorConfigured then env.receipt
                else none).isSome ∧ env.persistPostOk = false
            · rw [if_pos h4] at h; simp at h
            · rw [if_neg h4] at h ⊢
              by_cases h5 : env.writeOk = false
              · rw [if_pos h5] at h; simp at h
              · rw [if_neg h5]
                exact ⟨msID, bid, rfl, rfl, rfl⟩

/-- Shape of a successful createAndSendMilestone run, lifted from the tail
lemma: the merkle oracle answered, a configured quorum answered nil, and the
result has the successful-tail shape with the QuorumFinished event first when
quorum is configured. -/
lemma createAndSendMilestone_ok (coo : Coordinator) (env : Env) (fs : FS)
    (parents0 : List Nat) (newIdx prevID : Nat)
    (h : (createAndSendMilestone coo env fs parents0 newIdx prevID).err = none) :
    ∃ msID bid,
      env.milestoneID = some msID ∧ env.sendMilestone = some bid ∧
      createAndSendMilestone coo env fs parents0 newIdx prevID =
        ⟨none,
         { coo with state := ⟨newIdx, msID, bid, env.now⟩ },
         writeStateFile (renameStateFileToOld fs) ⟨newIdx, msID, bid, env.now⟩,
         (if coo.quorumEnabled then [Event.quorumFinished none] else []) ++
           [Event.issuedMilestone newIdx msID bid]⟩ := by
  unfold createAndSendMilestone at h ⊢
  cases hm : env.merkleRootFunc newIdx (u32 env.now) (removeDupsAndSort parents0)
      prevID with
  | none => rw [hm] at h; simp at h
  | some merkleProof =>
    rw [hm] at h
    dsimp only at h ⊢
    cases hqr : (if coo.quorumEnabled then
        checkMerkleTreeHash merkleProof env.quorumGroups else none) with
    | some e => rw [hqr] at h; simp at h
    | none =>
      rw [hqr] at h
      dsimp only at h ⊢
      exact createAndSendMilestoneTail_ok coo env fs newIdx
        (if coo.quorumEnabled then [Event.quorumFinished none] else []) h

/-- Shape of a successful IssueMilestone call, lifted from the pipeline
lemma: the gates passed, the signer and broadcast oracles answered, the
returned block ID is the broadcast result, and the post coordinator and
filesystem are fully determined. -/
lemma issueMilestone_ok_shape (coo : Coordinator) (env : Env) (fs : FS)
    (parents : List Nat) (b : Nat) (r : IssueResult)
    (h : IssueMilestone coo env fs parents = r) (hok : r.res = .ok b) :
    ∃ msID, env.milestoneID = some msID ∧ env.sendMilestone = some b ∧
      r.coo = { coo with
        state := ⟨u32 (coo.state.LatestMilestoneIndex + 1), msID, b, env.now⟩ } ∧
      r.fs = writeStateFile (renameStateFileToOld fs)
        ⟨u32 (coo.state.LatestMilestoneIndex + 1), msID, b, env.now⟩ := by
  subst h
  unfold IssueMilestone at hok ⊢
  by_cases hs : env.isNodeSynced = false
  · rw [if_pos hs] at hok; simp at hok
  · rw [if_neg hs] at hok ⊢
    by_cases hbp : checkBackPressureFunctions env = true
    · rw [if_pos hbp] at hok; simp at hok
    · rw [if_neg hbp] at hok ⊢
      rcases hcs : createAndSendMilestone coo env fs parents
          (u32 (coo.state.LatestMilestoneIndex + 1)) coo.state.LatestMilestoneID
        with ⟨err, coo1, fs1, evs⟩
      cases err with
      | some e => rw [hcs] at hok; simp at hok
      | none =>
        rw [hcs] at hok
        dsimp only at hok ⊢
        obtain ⟨msID, bid, hmid, hsendm, heq⟩ :=
          createAndSendMilestone_ok coo env fs parents
            (u32 (coo.state.LatestMilestoneIndex + 1))
            coo.state.LatestMilestoneID (by rw [hcs])
        rw [hcs] at heq
        obtain ⟨-, hcoo, hfs, -⟩ := MilestoneCallResult.mk.injEq .. ▸ heq
        subst hcoo hfs
        obtain rfl : bid = b := by simpa using hok
        exact ⟨msID, hmid, hsendm, rfl, rfl⟩

/-! Lemmas about the quorum round. -/

/-- The mismatch test of the group loop fires on every reply whose roots
differ from the locally computed ones. -/
lemma mismatch_cond_of_ne {localRoots r : MilestoneMerkleRoots}
    (h : r ≠ localRoots) :
    localRoots.AppliedMerkleRoot ≠ r.AppliedMerkleRoot ∨
      localRoots.InclusionMerkleRoot ≠ r.InclusionMerkleRoot := by
  by_contra hc
  push_neg at hc
  exact h (by cases localRoots; cases r; simp_all)

/-- A quorum group containing a reply with roots different from the local
ones returns the critical mismatch error, whatever the rest of the group and
the current valid counter are. -/
lemma quorumGroup_mismatch (localRoots : MilestoneMerkleRoots) :
    ∀ (g : List ClientOutcome) (v : Nat),
      (∃ rr, ClientOutcome.reply rr ∈ g ∧ rr ≠ localRoots) →
      checkMerkleTreeHashQuorumGroup localRoots g v = some .quorumMismatch := by
  intro g
  induction g with
  | nil => rintro v ⟨rr, hmem, -⟩; exact absurd hmem (List.not_mem_nil _)
  | cons c rest ih =>
    rintro v ⟨rr, hmem, hne⟩
    cases c with
    | clientError =>
      simp only [checkMerkleTreeHashQuorumGroup]
      refine ih v ⟨rr, ?_, hne⟩
      rcases List.mem_cons.mp hmem with heq | hm2
      · exact absurd heq (by simp)
      · exact hm2
    | clientTimeout =>
      simp only [checkMerkleTreeHashQuorumGroup]
      refine ih v ⟨rr, ?_, hne⟩
      rcases List.mem_cons.mp hmem with heq | hm2
      · exact absurd heq (by simp)
      · exact hm2
    | reply r =>
      simp only [checkMerkleTreeHashQuorumGroup]
      rcases List.mem_cons.mp hmem with heq | hm2
      · obtain rfl : r = rr := (ClientOutcome.reply.inj heq).symm
        rw [if_pos (mismatch_cond_of_ne hne)]
      · by_cases hcond : localRoots.AppliedMerkleRoot ≠ r.AppliedMerkleRoot ∨
            localRoots.InclusionMerkleRoot ≠ r.InclusionMerkleRoot
        · rw [if_pos hcond]
        · rw [if_neg hcond]
          exact ih (v + 1) ⟨rr, hm2, hne⟩

/-- A quorum group whose replies all match the local roots finishes with the
valid counter advanced by the number of replies, so it answers nil when any
reply arrived (or the counter was already positive) and the soft no-answer
error otherwise. -/
lemma quorumGroup_count (localRoots : MilestoneMerkleRoots) :
    ∀ (g : List ClientOutcome) (v : Nat),
      (∀ rr, ClientOutcome.reply rr ∈ g → rr = localRoots) →
      checkMerkleTreeHashQuorumGroup localRoots g v =
        (if v + countReplies g = 0 then some .quorumNoAnswer else none) := by
  intro g
  induction g with
  | nil => intro v _; simp [checkMerkleTreeHashQuorumGroup, countReplies]
  | cons c rest ih =>
    intro v hall
    cases c with
    | clientError =>
      simp only [checkMerkleTreeHashQuorumGroup]
      rw [ih v (fun rr h => hall rr (List.mem_cons_of_mem _ h))]
      simp [countReplies, List.countP_cons]
    | clientTimeout =>
      simp only [checkMerkleTreeHashQuorumGroup]
      rw [ih v (fun rr h => hall rr (List.mem_cons_of_mem _ h))]
      simp [countReplies, List.countP_cons]
    | reply r =>
      have hr : r = localRoots := hall r (List.mem_cons_self _ _)
      simp only [checkMerkleTreeHashQuorumGroup]
      rw [if_neg (by subst hr; simp)]
      rw [ih (v + 1) (fun rr h => hall rr (List.mem_cons_of_mem _ h))]
      have hcnt : countReplies (ClientOutcome.reply r :: rest) =
          countReplies rest + 1 := by
        simp [countReplies, List.countP_cons]
      rw [hcnt]
      have h2 : v + 1 + countReplies rest = v + (countReplies rest + 1) := by
        omega
      rw [h2]

/-- A group without any reply has a zero reply count. -/
lemma countReplies_eq_zero_of_noReply {g : List ClientOutcome}
    (h : ∀ rr, ClientOutcome.reply rr ∉ g) : countReplies g = 0 := by
  unfold countReplies
  rw [List.countP_eq_zero]
  intro c hc
  cases c with
  | reply r => exact absurd hc (h r)
  | clientError => simp
  | clientTimeout => simp

/-- A group containing a reply has a positive reply count. -/
lemma countReplies_ne_zero_of_reply {g : List ClientOutcome}
    {rr : MilestoneMerkleRoots} (h : ClientOutcome.reply rr ∈ g) :
    countReplies g ≠ 0 := by
  unfold countReplies
  intro h0
  rw [List.countP_eq_zero] at h0
  exact h0 _ h rfl

/-- A quorum group emits only the mismatch or the no-answer error, never any
other error value. -/
lemma quorumGroup_result_cases (localRoots : MilestoneMerkleRoots) :
    ∀ (g : List ClientOutcome) (v : Nat) (e : CooError),
      checkMerkleTreeHashQuorumGroup localRoots g v = some e →
      e = .quorumMismatch ∨ e = .quorumNoAnswer := by
  intro g
  induction g with
  | nil =>
    intro v e h
    simp only [checkMerkleTreeHashQuorumGroup] at h
    by_cases hv : v = 0
    · rw [if_pos hv] at h
      exact Or.inr (Option.some.inj h).symm
    · rw [if_neg hv] at h
      exact Option.noConfusion h
  | cons c rest ih =>
    intro v e h
    cases c with
    | clientError => exact ih v e h
    | clientTimeout => exact ih v e h
    | reply r =>
      simp only [checkMerkleTreeHashQuorumGroup] at h
      by_cases hcond : localRoots.AppliedMerkleRoot ≠ r.AppliedMerkleRoot ∨
          localRoots.InclusionMerkleRoot ≠ r.InclusionMerkleRoot
      · rw [if_pos hcond] at h
        exact Or.inl (Option.some.inj h).symm
      · rw [if_neg hcond] at h
        exact ih (v + 1) e h

/-- A quorum group can emit the no-answer error only when its valid counter
started at zero. -/
lemma quorumGroup_noAnswer_v0 (localRoots : MilestoneMerkleRoots) :
    ∀ (g : List ClientOutcome) (v : Nat),
      checkMerkleTreeHashQuorumGroup localRoots g v = some .quorumNoAnswer →
      v = 0 := by
  intro g
  induction g with
  | nil =>
    intro v h
    simp only [checkMerkleTreeHashQuorumGroup] at h
    by_cases hv : v = 0
    · exact hv
    · rw [if_neg hv] at h
      exact Option.noConfusion h
  | cons c rest ih =>
    intro v h
    cases c with
    | clientError => exact ih v h
    | clientTimeout => exact ih v h
    | reply r =>
      simp only [checkMerkleTreeHashQuorumGroup] at h
      by_cases hcond : localRoots.AppliedMerkleRoot ≠ r.AppliedMerkleRoot ∨
          localRoots.InclusionMerkleRoot ≠ r.InclusionMerkleRoot
      · rw [if_pos hcond] at h
        exact absurd (Option.some.inj h) (by simp)
      · rw [if_neg hcond] at h
        exact absurd (ih (v + 1) h) (Nat.succ_ne_zero v)

/-- A quorum group that received any reply never emits the no-answer error:
a mismatching reply turns into the mismatch error and a matching one makes
the valid counter positive. -/
lemma quorumGroup_noAnswer_no_reply (localRoots : MilestoneMerkleRoots) :
    ∀ (g : List ClientOutcome) (v : Nat),
      checkMerkleTreeHashQuorumGroup localRoots g v = some .quorumNoAnswer →
      ∀ rr, ClientOutcome.reply rr ∉ g := by
  intro g
  induction g with
  | nil => intro v _ rr; exact List.not_mem_nil _
  | cons c rest ih =>
    intro v h rr hmem
    cases c with
    | clientError =>
      rcases List.mem_cons.mp hmem with heq | hm2
      · exact absurd heq (by simp)
      · exact ih v h rr hm2
    | clientTimeout =>
      rcases List.mem_cons.mp hmem with heq | hm2
      · exact absurd heq (by simp)
      · exact ih v h rr hm2
    | reply r =>
      simp only [checkMerkleTreeHashQuorumGroup] at h
      by_cases hcond : localRoots.AppliedMerkleRoot ≠ r.AppliedMerkleRoot ∨
          localRoots.InclusionMerkleRoot ≠ r.InclusionMerkleRoot
      · rw [if_pos hcond] at h
        exact absurd (Option.some.inj h) (by simp)
      · rw [if_neg hcond] at h
        exact absurd (quorumGroup_noAnswer_v0 localRoots rest (v + 1) h)
          (Nat.succ_ne_zero v)

/-- When some reply carries roots different from the local ones and every
group received at least one reply, the full quorum round returns the
critical mismatch error under every schedule: each group then emits either
nothing or the mismatch error, so whichever error reaches the shared channel
first is the mismatch. -/
lemma checkMerkleTreeHash_mismatch (localRoots : MilestoneMerkleRoots)
    (groups : List (List ClientOutcome))
    (h : ∃ g ∈ groups, ∃ rr, ClientOutcome.reply rr ∈ g ∧ rr ≠ localRoots)
    (hns : ∀ g ∈ groups, ∃ rr, ClientOutcome.reply rr ∈ g) :
    checkMerkleTreeHash localRoots groups = some .quorumMismatch := by
  obtain ⟨g, hg, rr, hmem, hne⟩ := h
  have hmem_err : CooError.quorumMismatch ∈ groups.filterMap
      (fun g2 => checkMerkleTreeHashQuorumGroup localRoots g2 0) :=
    List.mem_filterMap.mpr
      ⟨g, hg, quorumGroup_mismatch localRoots g 0 ⟨rr, hmem, hne⟩⟩
  have hall : ∀ e ∈ groups.filterMap
      (fun g2 => checkMerkleTreeHashQuorumGroup localRoots g2 0),
      e = CooError.quorumMismatch := by
    intro e he
    obtain ⟨g2, hg2, hfe⟩ := List.mem_filterMap.mp he
    rcases quorumGroup_result_cases localRoots g2 0 e hfe with h1 | h1
    · exact h1
    · subst h1
      obtain ⟨rr2, hrr2⟩ := hns g2 hg2
      exact absurd hrr2 (quorumGroup_noAnswer_no_reply localRoots g2 0 hfe rr2)
  obtain ⟨a, t, hat⟩ :=
    List.exists_cons_of_ne_nil (List.ne_nil_of_mem hmem_err)
  have ha : a ∈ groups.filterMap
      (fun g2 => checkMerkleTreeHashQuorumGroup localRoots g2 0) := by
    rw [hat]
    exact List.mem_cons_self a t
  unfold checkMerkleTreeHash
  rw [hat, List.head?_cons, hall a ha]

/-- When exactly one group stays silent and every other group answers with
matching roots, the full quorum round returns the soft no-answer error. -/
lemma checkMerkleTreeHash_noAnswer (localRoots : MilestoneMerkleRoots)
    (pre post : List (List ClientOutcome)) (g : List ClientOutcome)
    (hfail : ∀ rr, ClientOutcome.reply rr ∉ g)
    (hothers : ∀ g2 ∈ pre ++ post,
      (∀ rr, ClientOutcome.reply rr ∈ g2 → rr = localRoots) ∧
      ∃ rr, ClientOutcome.reply rr ∈ g2) :
    checkMerkleTreeHash localRoots (pre ++ g :: post) = some .quorumNoAnswer := by
  have hgrp : checkMerkleTreeHashQuorumGroup localRoots g 0 =
      some .quorumNoAnswer := by
    rw [quorumGroup_count localRoots g 0 (fun rr h => absurd h (hfail rr)),
      countReplies_eq_zero_of_noReply hfail]
    rfl
  have hnone : ∀ g2 ∈ pre ++ post,
      checkMerkleTreeHashQuorumGroup localRoots g2 0 = none := by
    intro g2 hg2
    obtain ⟨hall, rr, hmem⟩ := hothers g2 hg2
    rw [quorumGroup_count localRoots g2 0 hall]
    rw [if_neg (by have := countReplies_ne_zero_of_reply hmem; omega)]
  have hfm : (pre ++ g :: post).filterMap
      (fun g2 => checkMerkleTreeHashQuorumGroup localRoots g2 0) =
      [CooError.quorumNoAnswer] := by
    have hpre : pre.filterMap
        (fun g2 => checkMerkleTreeHashQuorumGroup localRoots g2 0) = [] :=
      List.filterMap_eq_nil_iff.mpr
        (fun a ha => hnone a (List.mem_append_left _ ha))
    have hpost : post.filterMap
        (fun g2 => checkMerkleTreeHashQuorumGroup localRoots g2 0) = [] :=
      List.filterMap_eq_nil_iff.mpr
        (fun a ha => hnone a (List.mem_append_right _ ha))
    rw [List.filterMap_append, List.filterMap_cons, hgrp, hpre, hpost]
    rfl
  unfold checkMerkleTreeHash
  rw [hfm]
  rfl

/-! Lemmas about the checkpoint issuance loop. -/

/-- Prepending the image of 0 to a shifted range image gives the image of the
extended range. -/
lemma cons_range_map {α : Type} (f : Nat → α) (n : Nat) (a : α) (g : Nat → α)
    (h0 : a = f 0) (hstep : ∀ j, j < n → g j = f (j + 1)) :
    a :: (List.range n).map g = (List.range (n + 1)).map f := by
  rw [List.range_succ_eq_map, List.map_cons, List.map_map, h0]
  congr 1
  exact List.map_congr_left (fun j hj => hstep j (List.mem_range.mp hj))

/-- Behaviour of the checkpoint issuance loop when the record builder and the
broadcast succeed on every chunk in reach: the loop runs all remaining
iterations, returns the block ID of the last broadcast (the incoming seed
when no iteration remains), builds one record per chunk whose parents are the
chained seed prepended to that chunk, deduplicated and sorted, and fires one
IssuedCheckpointBlock event per broadcast carrying the chunk counter and the
broadcast block ID. -/
lemma issueCheckpointChunks_allOk (env : Env) (tips : List Nat)
    (cpIdx cpNum : Nat) (bid : Nat → Nat)
    (hc : ∀ j, env.createCheckpointOk j = true) :
    ∀ (remaining i last : Nat),
      (∀ j, j < remaining → env.sendCheckpoint (i + j) = some (bid (i + j))) →
      issueCheckpointChunks env tips cpIdx cpNum remaining i last =
        ⟨.ok (if remaining = 0 then last else bid (i + remaining - 1)),
         (List.range remaining).map (fun j =>
           removeDupsAndSort ((if j = 0 then last else bid (i + j - 1)) ::
             chunkAt tips (i + j))),
         (List.range remaining).map (fun j =>
           Event.issuedCheckpointBlock cpIdx (i + j) cpNum (bid (i + j)))⟩ := by
  intro remaining
  induction remaining with
  | zero => intro i last _; simp [issueCheckpointChunks]
  | succ rem ih =>
    intro i last hs
    have hsend0 : env.sendCheckpoint i = some (bid i) := by
      simpa using hs 0 (Nat.succ_pos rem)
    simp only [issueCheckpointChunks]
    rw [if_neg (by simp [hc i]), hsend0]
    dsimp only
    rw [ih (i + 1) (bid i) (fun j hj => by
      have hsj := hs (j + 1) (Nat.succ_lt_succ hj)
      have harg : i + (j + 1) = i + 1 + j := by omega
      rwa [harg] at hsj)]
    dsimp only
    simp only [CheckpointResult.mk.injEq]
    refine ⟨?_, ?_, ?_⟩
    · rcases Nat.eq_zero_or_pos rem with rfl | hpos
      · simp
      · rw [if_neg (by omega : ¬(rem = 0)), if_neg (by omega : ¬(rem + 1 = 0))]
        have e1 : i + 1 + rem - 1 = i + (rem + 1) - 1 := by omega
        rw [e1]
    · refine cons_range_map _ rem _ _ (by simp) (fun j hj => ?_)
      rcases j with _ | k
      · simp
      · have e1 : i + 1 + (k + 1) - 1 = i + (k + 1 + 1) - 1 := by omega
        have e2 : i + 1 + (k + 1) = i + (k + 1 + 1) := by omega
        rw [if_neg (by omega : ¬(k + 1 = 0)),
          if_neg (by omega : ¬(k + 1 + 1 = 0)), e1, e2]
    · refine cons_range_map _ rem _ _ (by simp) (fun j hj => ?_)
      have e2 : i + 1 + j = i + (j + 1) := by omega
      rw [e2]

/-- Behaviour of the checkpoint issuance loop when the broadcasts succeed on
the first m chunks and fail on chunk m (with more than m iterations left):
the first m records are built and broadcast with their events fired, the
record of chunk m is built but its broadcast fails, and the loop stops with
the soft send error. -/
lemma issueCheckpointChunks_sendFail (env : Env) (tips : List Nat)
    (cpIdx cpNum : Nat) (bid : Nat → Nat)
    (hc : ∀ j, env.createCheckpointOk j = true) :
    ∀ (m remaining i last : Nat), m < remaining →
      (∀ j, j < m → env.sendCheckpoint (i + j) = some (bid (i + j))) →
      env.sendCheckpoint (i + m) = none →
      issueCheckpointChunks env tips cpIdx cpNum remaining i last =
        ⟨.error .sendCheckpointFailed,
         (List.range (m + 1)).map (fun j =>
           removeDupsAndSort ((if j = 0 then last else bid (i + j - 1)) ::
             chunkAt tips (i + j))),
         (List.range m).map (fun j =>
           Event.issuedCheckpointBlock cpIdx (i + j) cpNum (bid (i + j)))⟩ := by
  intro m
  induction m with
  | zero =>
    intro remaining i last hlt _ hfail
    obtain ⟨rem, rfl⟩ : ∃ rem, remaining = rem + 1 := ⟨remaining - 1, by omega⟩
    simp only [issueCheckpointChunks]
    rw [if_neg (by simp [hc i]), show env.sendCheckpoint i = none from hfail]
    simp [show List.range 1 = [0] from rfl]
  | succ k ih =>
    intro remaining i last hlt hs hfail
    obtain ⟨rem, rfl⟩ : ∃ rem, remaining = rem + 1 := ⟨remaining - 1, by omega⟩
    have hsend0 : env.sendCheckpoint i = some (bid i) := by
      simpa using hs 0 (Nat.succ_pos k)
    simp only [issueCheckpointChunks]
    rw [if_neg (by simp [hc i]), hsend0]
    dsimp only
    rw [ih rem (i + 1) (bid i) (by omega)
      (fun j hj => by
        have hsj := hs (j + 1) (Nat.succ_lt_succ hj)
        have harg : i + (j + 1) = i + 1 + j := by omega
        rwa [harg] at hsj)
      (by
        have harg : i + (k + 1) = i + 1 + k := by omega
        rwa [harg] at hfail)]
    dsimp only
    simp only [CheckpointResult.mk.injEq]
    refine ⟨trivial, ?_, ?_⟩
    · refine cons_range_map _ (k + 1) _ _ (by simp) (fun j hj => ?_)
      rcases j with _ | k2
      · simp
      · have e1 : i + 1 + (k2 + 1) - 1 = i + (k2 + 1 + 1) - 1 := by omega
        have e2 : i + 1 + (k2 + 1) = i + (k2 + 1 + 1) := by omega
        rw [if_neg (by omega : ¬(k2 + 1 = 0)),
          if_neg (by omega : ¬(k2 + 1 + 1 = 0)), e1, e2]
    · refine cons_range_map _ k _ _ (by simp) (fun j hj => ?_)
      have e2 : i + 1 + j = i + (j + 1) := by omega
      rw [e2]

/-- Failure shape of the milestone pipeline tail when all steps up to the
broadcast succeed but the broadcast fails: the state file has been renamed
away, the error is the critical send failure, state untouched. -/
lemma createAndSendMilestoneTail_sendFail (coo : Coordinator) (env : Env)
    (fs : FS) (newIdx : Nat) (evs : List Event) (msID : Nat)
    (h1 : ¬((if coo.migratorConfigured then env.receipt else none).isSome ∧
      env.persistPreOk = false))
    (h2 : ¬((if coo.migratorConfigured then env.receipt else none).isSome ∧
      env.treasury = none))
    (h3 : env.createMilestoneOk = true)
    (h4 : env.milestoneID = some msID)
    (h5 : env.sendMilestone = none) :
    createAndSendMilestoneTail coo env fs newIdx evs =
      ⟨some .sendMilestoneFailed, coo, renameStateFileToOld fs, evs⟩ := by
  unfold createAndSendMilestoneTail
  rw [if_neg h1, if_neg h2, if_neg (by simp [h3]), h4]
  dsimp only
  rw [h5]

/-! Claim theorems. -/

/-- C1: for every successful IssueMilestone call with prior coordinator state
S, the post state advances LatestMilestoneIndex by exactly one (uint32
addition, as in the source), all four state fields refer to the newly emitted
milestone — the new index, the ID of the signed milestone, the block ID the
broadcast returned (which is also the returned value), and the timestamp the
milestone was built with — and the state file holds exactly the post state. -/
theorem issueMilestone_success_state (coo : Coordinator) (env : Env) (fs : FS)
    (parents : List Nat) (b : Nat) (r : IssueResult)
    (h : IssueMilestone coo env fs parents = r) (hok : r.res = .ok b) :
    r.coo.state.LatestMilestoneIndex = u32 (coo.state.LatestMilestoneIndex + 1) ∧
    (∃ msID, env.milestoneID = some msID ∧ env.sendMilestone = some b ∧
      r.coo.state = ⟨u32 (coo.state.LatestMilestoneIndex + 1), msID, b, env.now⟩) ∧
    r.fs.stateFile = some (r.coo.state, stateFilePerm) := by
  obtain ⟨msID, hmid, hsendm, hcoo, hfs⟩ :=
    issueMilestone_ok_shape coo env fs parents b r h hok
  rw [hcoo, hfs]
  exact ⟨rfl, ⟨msID, hmid, hsendm, rfl⟩, rfl⟩

/-- Witness for C1 at a concrete successful call: prior index 5, new index 6,
signer ID 7, broadcast block 8, timestamp 100. -/
theorem issueMilestone_success_state_witness :
    (IssueMilestone cooBase envBase fsBase [3]).coo.state.LatestMilestoneIndex =
      u32 (cooBase.state.LatestMilestoneIndex + 1) ∧
    (∃ msID, envBase.milestoneID = some msID ∧ envBase.sendMilestone = some 8 ∧
      (IssueMilestone cooBase envBase fsBase [3]).coo.state =
        ⟨u32 (cooBase.state.LatestMilestoneIndex + 1), msID, 8, envBase.now⟩) ∧
    (IssueMilestone cooBase envBase fsBase [3]).fs.stateFile =
      some ((IssueMilestone cooBase envBase fsBase [3]).coo.state, stateFilePerm) :=
  issueMilestone_success_state cooBase envBase fsBase [3] 8
    (IssueMilestone cooBase envBase fsBase [3]) rfl (by rfl)

/-- C7: if a Bootstrap call succeeds, a second Bootstrap call straight after
it (under any environment) returns the same block ID, emits no events — in
particular no new milestone — and leaves the coordinator and the filesystem
unchanged. -/
theorem bootstrap_idempotent (coo : Coordinator) (env env2 : Env) (fs : FS)
    (b : Nat) (r : IssueResult)
    (h : Bootstrap coo env fs = r) (hok : r.res = .ok b) :
    Bootstrap r.coo env2 r.fs = ⟨.ok b, r.coo, r.fs, []⟩ := by
  subst h
  unfold Bootstrap at hok ⊢
  by_cases hb : coo.bootstrapped = false
  · rw [if_pos hb] at hok ⊢
    rcases hcs : createAndSendMilestone coo env fs [coo.state.LatestMilestoneBlockID]
        (u32 (coo.state.LatestMilestoneIndex + 1)) coo.state.LatestMilestoneID
      with ⟨err, coo1, fs1, evs⟩
    cases err with
    | some e => rw [hcs] at hok; simp at hok
    | none =>
      rw [hcs] at hok
      dsimp only at hok ⊢
      obtain rfl : coo1.state.LatestMilestoneBlockID = b := by simpa using hok
      rfl
  · rw [if_neg hb] at hok ⊢
    dsimp only at hok ⊢
    obtain rfl : coo.state.LatestMilestoneBlockID = b := by simpa using hok
    rw [if_neg hb]

/-- Witness for C7: a concrete first Bootstrap that issues milestone 6 and
returns block 8; the repeated call is the identity. -/
theorem bootstrap_idempotent_witness :
    Bootstrap (Bootstrap { cooBase with bootstrapped := false } envBase fsBase).coo
        envBase (Bootstrap { cooBase with bootstrapped := false } envBase fsBase).fs =
      ⟨.ok 8, (Bootstrap { cooBase with bootstrapped := false } envBase fsBase).coo,
        (Bootstrap { cooBase with bootstrapped := false } envBase fsBase).fs, []⟩ :=
  bootstrap_idempotent { cooBase with bootstrapped := false } envBase envBase fsBase 8
    (Bootstrap { cooBase with bootstrapped := false } envBase fsBase) rfl (by rfl)

/-- C9: New returns a critical error and no coordinator whenever a migrator
service is provided without a treasury output fetch function, and with no
migrator service a missing treasury output function is accepted. -/
theorem new_migrator_requires_treasury :
    (∀ q, New true false q = .error .migratorWithoutTreasury) ∧
    CooError.isCritical .migratorWithoutTreasury = true ∧
    (∀ q, ∃ c, New false false q = .ok c) :=
  ⟨fun _ => rfl, rfl, fun _ => ⟨_, rfl⟩⟩

/-- C8 counterexample: a concrete successful emission writes the state file
with permission bits octal 660 (decimal 432). The middle permission digit —
the group access bits — is 6, i.e. the group gets read and write access,
contradicting the claim that only the owner may read and write the file. -/
theorem stateFile_perm_counterexample :
    (IssueMilestone cooBase envBase fsBase [3]).res = .ok 8 ∧
    (IssueMilestone cooBase envBase fsBase [3]).fs.stateFile =
      some (⟨6, 7, 8, 100⟩, 0o660) ∧
    0o660 / 8 % 8 ≠ 0 :=
  ⟨rfl, rfl, by decide⟩

/-- C8 amended: on every successful emission the state file is written with
permission bits octal 660 — read and write for the owner, read and write for
the group, and no access for others. -/
theorem stateFile_perm_owner_group (coo : Coordinator) (env : Env) (fs : FS)
    (parents : List Nat) (b : Nat) (r : IssueResult)
    (h : IssueMilestone coo env fs parents = r) (hok : r.res = .ok b) :
    (∃ s, r.fs.stateFile = some (s, stateFilePerm)) ∧
    stateFilePerm = 0o660 ∧ stateFilePerm / 64 % 8 = 6 ∧
    stateFilePerm / 8 % 8 = 6 ∧ stateFilePerm % 8 = 0 := by
  obtain ⟨msID, -, -, -, hfs⟩ :=
    issueMilestone_ok_shape coo env fs parents b r h hok
  rw [hfs]
  exact ⟨⟨_, rfl⟩, rfl, rfl, rfl, rfl⟩

/-- Witness for the amended C8 at the concrete successful call of the
counterexample. -/
theorem stateFile_perm_owner_group_witness :
    (∃ s, (IssueMilestone cooBase envBase fsBase [3]).fs.stateFile =
      some (s, stateFilePerm)) ∧
    stateFilePerm = 0o660 ∧ stateFilePerm / 64 % 8 = 6 ∧
    stateFilePerm / 8 % 8 = 6 ∧ stateFilePerm % 8 = 0 :=
  stateFile_perm_owner_group cooBase envBase fsBase [3] 8
    (IssueMilestone cooBase envBase fsBase [3]) rfl (by rfl)

/-- Characterization of a bootstrap InitState run with the state file
absent, read off from the definition. -/
lemma initState_bootstrap_eq (coo : Coordinator) (fs : FS)
    (startIndex0 : Nat) (latest : LatestMilestoneInfo) (now : Nat)
    (hnone : fs.stateFile = none) :
    InitState coo fs true startIndex0 latest now =
      (if latest.Index ≠ normalizeStartIndex startIndex0 - 1 then
        .error .previousMilestoneMismatch
      else if normalizeStartIndex startIndex0 ≠ 1 ∧ latest.MilestoneID = 0 then
        .error .previousMilestoneGenesis
      else .ok { coo with
            state := { LatestMilestoneIndex := normalizeStartIndex startIndex0 - 1,
                       LatestMilestoneID :=
                         if normalizeStartIndex startIndex0 ≠ 1 then
                           latest.MilestoneID
                         else 0,
                       LatestMilestoneBlockID := 0,
                       LatestMilestoneTime := now },
            bootstrapped := false }) := by
  unfold InitState
  rw [hnone]
  rfl

/-- C6: InitState with bootstrap fails with NetworkBootstrapped when the
state file exists; with the file absent, a zero start index is normalized to
1, the call succeeds exactly when the node-observed index equals
startIndex - 1 and, whenever the normalized start index is not 1, the
observed milestone ID is non-zero (a start index of 1 permits the zero ID);
on success the seeded state has LatestMilestoneIndex = startIndex - 1 and the
coordinator is left not bootstrapped. -/
theorem initState_bootstrap_spec (coo : Coordinator) (fs : FS)
    (startIndex0 : Nat) (latest : LatestMilestoneInfo) (now : Nat) :
    normalizeStartIndex 0 = 1 ∧
    (startIndex0 ≠ 0 → normalizeStartIndex startIndex0 = startIndex0) ∧
    (fs.stateFile.isSome = true →
      InitState coo fs true startIndex0 latest now = .error .networkBootstrapped) ∧
    (fs.stateFile = none →
      ((∃ c, InitState coo fs true startIndex0 latest now = .ok c) ↔
        (latest.Index = normalizeStartIndex startIndex0 - 1 ∧
         (normalizeStartIndex startIndex0 ≠ 1 → latest.MilestoneID ≠ 0))) ∧
      (∀ c, InitState coo fs true startIndex0 latest now = .ok c →
        c.state.LatestMilestoneIndex = normalizeStartIndex startIndex0 - 1 ∧
        c.bootstrapped = false)) := by
  refine ⟨rfl, fun h0 => by simp [normalizeStartIndex, h0],
    fun hex => by simp [InitState, hex], fun hnone => ?_⟩
  have hrun := initState_bootstrap_eq coo fs startIndex0 latest now hnone
  by_cases h1 : latest.Index = normalizeStartIndex startIndex0 - 1
  · rw [if_neg (not_not_intro h1)] at hrun
    by_cases h2 : normalizeStartIndex startIndex0 ≠ 1 ∧ latest.MilestoneID = 0
    · rw [if_pos h2] at hrun
      refine ⟨⟨fun hc => ?_, fun hc => ?_⟩, fun c hc => ?_⟩
      · obtain ⟨c, hc⟩ := hc
        rw [hrun] at hc
        exact Except.noConfusion hc
      · exact absurd (hc.2 h2.1) (not_not_intro h2.2)
      · rw [hrun] at hc
        exact Except.noConfusion hc
    · rw [if_neg h2] at hrun
      refine ⟨⟨fun _ => ⟨h1, fun hne hzero => h2 ⟨hne, hzero⟩⟩,
        fun _ => ⟨_, hrun⟩⟩, fun c hc => ?_⟩
      rw [hrun] at hc
      obtain rfl := (Except.ok.inj hc).symm
      exact ⟨rfl, rfl⟩
  · rw [if_pos h1] at hrun
    refine ⟨⟨fun hc => ?_, fun hc => absurd hc.1 h1⟩, fun c hc => ?_⟩
    · obtain ⟨c, hc⟩ := hc
      rw [hrun] at hc
      exact Except.noConfusion hc
    · rw [hrun] at hc
      exact Except.noConfusion hc

/-- Witness for C6 at concrete inputs: state file absent, start index 0
(normalized to 1), observed latest index 0 with the zero milestone ID; the
call succeeds and seeds index 0, not bootstrapped. -/
theorem initState_bootstrap_spec_witness :
    ∃ c, InitState cooBase ⟨none, none⟩ true 0 ⟨0, 0, 0⟩ 77 = .ok c ∧
      c.state.LatestMilestoneIndex = 0 ∧ c.bootstrapped = false := by
  obtain ⟨-, -, -, h4⟩ :=
    initState_bootstrap_spec cooBase ⟨none, none⟩ 0 ⟨0, 0, 0⟩ 77
  obtain ⟨hiff, hshape⟩ := h4 rfl
  obtain ⟨c, hc⟩ := hiff.mpr (by decide)
  obtain ⟨hidx, hboot⟩ := hshape c hc
  exact ⟨c, hc, hidx, hboot⟩

/-- C2 counterexample: local roots (1,2); one group holds a single client
that errors out fast (a silent group) and a second group holds a client
replying the mismatching (1,3). The silent group finishes its one-message
loop immediately and its soft no-answer error reaches the shared unbuffered
error channel first — here the group order carries that schedule — so the
round returns QuorumGroupNoAnswer and IssueMilestone surfaces the soft
error, not the claimed critical QuorumMerkleHashMismatch, even though a
mismatching reply exists. -/
theorem quorum_mismatch_race_counterexample :
    (∃ rr, ClientOutcome.reply rr ∈
      ([ClientOutcome.reply roots1] : List ClientOutcome) ∧ rr ≠ roots0) ∧
    ([ClientOutcome.reply roots1] : List ClientOutcome) ∈
      ([[ClientOutcome.clientError], [ClientOutcome.reply roots1]] :
        List (List ClientOutcome)) ∧
    checkMerkleTreeHash roots0
      [[ClientOutcome.clientError], [ClientOutcome.reply roots1]] =
      some .quorumNoAnswer ∧
    CooError.quorumNoAnswer ≠ CooError.quorumMismatch ∧
    IssueMilestone { cooBase with quorumEnabled := true }
        { envBase with quorumGroups :=
          [[ClientOutcome.clientError], [ClientOutcome.reply roots1]] }
        fsBase [3] =
      ⟨.error .quorumNoAnswer, { cooBase with quorumEnabled := true }, fsBase,
        [Event.quorumFinished (some .quorumNoAnswer)]⟩ :=
  ⟨⟨roots1, by simp, by decide⟩, by simp, rfl, by decide, rfl⟩

/-- C2 amended: whenever any quorum client replies with merkle roots
different from the locally computed ones AND no group is left unanswered
(every group received at least one reply), the quorum round returns the
critical QuorumMerkleHashMismatch error under every schedule — each group
then emits either nothing or the mismatch error — and the enclosing
IssueMilestone (sync and back-pressure gates passing, merkle callback
answering the local roots) returns exactly that error with the in-memory
coordinator and the filesystem unchanged: in particular no rename of the
state file to the old path, which happens only after quorum success.
Without the no-silent-group proviso the source returns whichever group
error reaches the shared unbuffered channel first, so a fast-failing silent
group can surface its soft no-answer error instead. -/
theorem quorum_mismatch_aborts_milestone (coo : Coordinator) (env : Env)
    (fs : FS) (parents : List Nat) (localRoots : MilestoneMerkleRoots)
    (g : List ClientOutcome) (rr : MilestoneMerkleRoots)
    (hq : coo.quorumEnabled = true)
    (hsync : env.isNodeSynced = true)
    (hbp : checkBackPressureFunctions env = false)
    (hm : env.merkleRootFunc (u32 (coo.state.LatestMilestoneIndex + 1))
      (u32 env.now) (removeDupsAndSort parents)
      coo.state.LatestMilestoneID = some localRoots)
    (hg : g ∈ env.quorumGroups) (hmem : ClientOutcome.reply rr ∈ g)
    (hne : rr ≠ localRoots)
    (hnosilent : ∀ g2 ∈ env.quorumGroups,
      ∃ rr2, ClientOutcome.reply rr2 ∈ g2) :
    checkMerkleTreeHash localRoots env.quorumGroups = some .quorumMismatch ∧
    IssueMilestone coo env fs parents =
      ⟨.error .quorumMismatch, coo, fs,
        [Event.quorumFinished (some .quorumMismatch)]⟩ ∧
    CooError.isCritical .quorumMismatch = true := by
  have hchk := checkMerkleTreeHash_mismatch localRoots env.quorumGroups
    ⟨g, hg, rr, hmem, hne⟩ hnosilent
  refine ⟨hchk, ?_, rfl⟩
  have hcs : createAndSendMilestone coo env fs parents
      (u32 (coo.state.LatestMilestoneIndex + 1)) coo.state.LatestMilestoneID =
      ⟨some .quorumMismatch, coo, fs,
        [Event.quorumFinished (some .quorumMismatch)]⟩ := by
    unfold createAndSendMilestone
    rw [hm]
    dsimp only
    rw [hq, hchk]
    rfl
  unfold IssueMilestone
  rw [if_neg (by simp [hsync]), if_neg (by simp [hbp]), hcs]

/-- Witness for the amended C2: local roots (1,2); one group answers the
matching (1,2), a second group answers the mismatching (1,3). Both groups
received a reply, so the round aborts with the critical mismatch error and
coordinator, state file, and old file are untouched. -/
theorem quorum_mismatch_aborts_milestone_witness :
    checkMerkleTreeHash roots0
        [[ClientOutcome.reply roots0], [ClientOutcome.reply roots1]] =
      some .quorumMismatch ∧
    IssueMilestone { cooBase with quorumEnabled := true }
        { envBase with quorumGroups :=
          [[ClientOutcome.reply roots0], [ClientOutcome.reply roots1]] }
        fsBase [3] =
      ⟨.error .quorumMismatch, { cooBase with quorumEnabled := true }, fsBase,
        [Event.quorumFinished (some .quorumMismatch)]⟩ ∧
    CooError.isCritical .quorumMismatch = true :=
  quorum_mismatch_aborts_milestone { cooBase with quorumEnabled := true }
    { envBase with quorumGroups :=
      [[ClientOutcome.reply roots0], [ClientOutcome.reply roots1]] }
    fsBase [3] roots0 [ClientOutcome.reply roots1] roots1
    rfl rfl rfl rfl (by simp) (by simp) (by decide)
    (by
      intro g2 hg2
      simp only [List.mem_cons, List.not_mem_nil, or_false] at hg2
      rcases hg2 with rfl | rfl
      · exact ⟨roots0, by simp⟩
      · exact ⟨roots1, by simp⟩)

/-- C3: if in a quorum round every client of some group fails to reply (all
error or time out) while each remaining group has at least one reply and all
its replies match the local roots, the quorum round returns the soft
QuorumGroupNoAnswer error (the one error any group sent), and the enclosing
IssueMilestone (gates passing, merkle callback answering the local roots)
returns exactly that soft error without emitting a milestone: coordinator
and filesystem are unchanged. -/
theorem quorum_silent_group_soft (coo : Coordinator) (env : Env)
    (fs : FS) (parents : List Nat) (localRoots : MilestoneMerkleRoots)
    (pre post : List (List ClientOutcome)) (g : List ClientOutcome)
    (hq : coo.quorumEnabled = true)
    (hsync : env.isNodeSynced = true)
    (hbp : checkBackPressureFunctions env = false)
    (hm : env.merkleRootFunc (u32 (coo.state.LatestMilestoneIndex + 1))
      (u32 env.now) (removeDupsAndSort parents)
      coo.state.LatestMilestoneID = some localRoots)
    (hgs : env.quorumGroups = pre ++ g :: post)
    (hfail : ∀ rr, ClientOutcome.reply rr ∉ g)
    (hothers : ∀ g2 ∈ pre ++ post,
      (∀ rr, ClientOutcome.reply rr ∈ g2 → rr = localRoots) ∧
      ∃ rr, ClientOutcome.reply rr ∈ g2) :
    checkMerkleTreeHash localRoots env.quorumGroups = some .quorumNoAnswer ∧
    IssueMilestone coo env fs parents =
      ⟨.error .quorumNoAnswer, coo, fs,
        [Event.quorumFinished (some .quorumNoAnswer)]⟩ ∧
    CooError.isCritical .quorumNoAnswer = false := by
  have hchk : checkMerkleTreeHash localRoots env.quorumGroups =
      some .quorumNoAnswer := by
    rw [hgs]
    exact checkMerkleTreeHash_noAnswer localRoots pre post g hfail hothers
  refine ⟨hchk, ?_, rfl⟩
  have hcs : createAndSendMilestone coo env fs parents
      (u32 (coo.state.LatestMilestoneIndex + 1)) coo.state.LatestMilestoneID =
      ⟨some .quorumNoAnswer, coo, fs,
        [Event.quorumFinished (some .quorumNoAnswer)]⟩ := by
    unfold createAndSendMilestone
    rw [hm]
    dsimp only
    rw [hq, hchk]
    rfl
  unfold IssueMilestone
  rw [if_neg (by simp [hsync]), if_neg (by simp [hbp]), hcs]

/-- Witness for C3: one group with two failing clients (an error and a
timeout), a second group replying with the matching local roots; the call
returns the soft no-answer error and changes nothing. -/
theorem quorum_silent_group_soft_witness :
    checkMerkleTreeHash roots0
        [[ClientOutcome.clientError, ClientOutcome.clientTimeout],
         [ClientOutcome.reply roots0]] = some .quorumNoAnswer ∧
    IssueMilestone { cooBase with quorumEnabled := true }
        { envBase with quorumGroups :=
          [[ClientOutcome.clientError, ClientOutcome.clientTimeout],
           [ClientOutcome.reply roots0]] } fsBase [3] =
      ⟨.error .quorumNoAnswer, { cooBase with quorumEnabled := true }, fsBase,
        [Event.quorumFinished (some .quorumNoAnswer)]⟩ ∧
    CooError.isCritical .quorumNoAnswer = false :=
  quorum_silent_group_soft { cooBase with quorumEnabled := true }
    { envBase with quorumGroups :=
      [[ClientOutcome.clientError, ClientOutcome.clientTimeout],
       [ClientOutcome.reply roots0]] } fsBase [3] roots0
    [] [[ClientOutcome.reply roots0]]
    [ClientOutcome.clientError, ClientOutcome.clientTimeout]
    rfl rfl rfl rfl rfl
    (by intro rr h; simp at h)
    (by
      intro g2 hg2
      simp only [List.nil_append, List.mem_singleton] at hg2
      subst hg2
      refine ⟨?_, roots0, by simp⟩
      intro rr h
      simp at h
      exact h)

/-- C5: for every non-empty tip list with the sync and back-pressure gates
passing and the record builder and broadcast succeeding, IssueCheckpoint
builds exactly ceil(len(tips)/7) checkpoint records; the j-th record has as
parents the chain seed (the given last checkpoint block ID for j = 0,
otherwise the block ID returned by the previous broadcast) prepended to the
j-th chunk of at most 7 tips, deduplicated and sorted; each broadcast updates
the chain seed to the returned block ID, the final seed being the returned
value; one event per chunk fires with the chunk counter, the chunk count and
the broadcast block ID. Here ceil(len/7) is (len+6)/7, the unique N with
7(N-1) < len and len at most 7N, and the j-th chunk tips[7j : 7j+7] has
length min 7 (len - 7j). -/
theorem issueCheckpoint_chunking (coo : Coordinator) (env : Env)
    (checkpointIndex lastCheckpointBlockID : Nat) (tips : List Nat)
    (bid : Nat → Nat)
    (hne : tips.length ≠ 0)
    (hsync : env.isNodeSynced = true)
    (hbp : checkBackPressureFunctions env = false)
    (hcreate : ∀ j, env.createCheckpointOk j = true)
    (hsend : ∀ j, j < (tips.length + 6) / 7 →
      env.sendCheckpoint j = some (bid j)) :
    IssueCheckpoint coo env checkpointIndex lastCheckpointBlockID tips =
      ⟨.ok (bid ((tips.length + 6) / 7 - 1)),
       (List.range ((tips.length + 6) / 7)).map (fun j =>
         removeDupsAndSort
           ((if j = 0 then lastCheckpointBlockID else bid (j - 1)) ::
             chunkAt tips j)),
       (List.range ((tips.length + 6) / 7)).map (fun j =>
         Event.issuedCheckpointBlock checkpointIndex j ((tips.length + 6) / 7)
           (bid j))⟩ ∧
    7 * ((tips.length + 6) / 7 - 1) < tips.length ∧
    tips.length ≤ 7 * ((tips.length + 6) / 7) ∧
    (∀ j, (chunkAt tips j).length = min 7 (tips.length - 7 * j)) := by
  refine ⟨?_, by omega, by omega, fun j => by simp [chunkAt]⟩
  unfold IssueCheckpoint
  rw [if_neg hne, if_neg (by simp [hsync]), if_neg (by simp [hbp])]
  rw [issueCheckpointChunks_allOk env tips checkpointIndex
    ((tips.length + 6) / 7) bid hcreate ((tips.length + 6) / 7) 0
    lastCheckpointBlockID (fun j hj => by rw [Nat.zero_add]; exact hsend j hj)]
  have hN : (tips.length + 6) / 7 ≠ 0 := by omega
  simp only [CheckpointResult.mk.injEq]
  refine ⟨?_, ?_, ?_⟩
  · rw [if_neg hN, Nat.zero_add]
  · refine List.map_congr_left (fun j hj => ?_)
    rw [Nat.zero_add]
  · refine List.map_congr_left (fun j hj => ?_)
    rw [Nat.zero_add]

/-- Witness for C5: 15 tips produce exactly ceil(15/7) = 3 records with
chunk sizes 7, 7 and 1, parents deduplicated and sorted with the chained
seed 99, 1000, 1001, and the final broadcast 1002 returned. -/
theorem issueCheckpoint_chunking_witness :
    IssueCheckpoint cooBase envBase 4 99
        [1, 2, 3, 4, 5, 6, 7, 8, 9, 10, 11, 12, 13, 14, 15] =
      ⟨.ok 1002,
       [[1, 2, 3, 4, 5, 6, 7, 99], [8, 9, 10, 11, 12, 13, 14, 1000],
        [15, 1001]],
       [Event.issuedCheckpointBlock 4 0 3 1000,
        Event.issuedCheckpointBlock 4 1 3 1001,
        Event.issuedCheckpointBlock 4 2 3 1002]⟩ ∧
    (chunkAt [1, 2, 3, 4, 5, 6, 7, 8, 9, 10, 11, 12, 13, 14, 15] 0).length = 7 ∧
    (chunkAt [1, 2, 3, 4, 5, 6, 7, 8, 9, 10, 11, 12, 13, 14, 15] 1).length = 7 ∧
    (chunkAt [1, 2, 3, 4, 5, 6, 7, 8, 9, 10, 11, 12, 13, 14, 15] 2).length = 1 := by
  have h := issueCheckpoint_chunking cooBase envBase 4 99
    [1, 2, 3, 4, 5, 6, 7, 8, 9, 10, 11, 12, 13, 14, 15] (fun j => 1000 + j)
    (by decide) rfl rfl (fun j => rfl) (fun j hj => rfl)
  exact ⟨h.1.trans (by rfl), by decide, by decide, by decide⟩

/-- C10: IssueCheckpoint is not atomic across chunks. When the broadcasts of
chunks 0..k-1 succeed and the broadcast of chunk k fails (k at least 1,
below the chunk count, gates passing, records building), the call returns
the soft send error — an argumentless constant that carries no indication of
which chunks were emitted — although the first k records were already
broadcast: exactly one IssuedCheckpointBlock event per broadcast chunk has
already fired, and the record of chunk k was built but never broadcast. -/
theorem issueCheckpoint_partial_broadcast (coo : Coordinator) (env : Env)
    (checkpointIndex lastCheckpointBlockID : Nat) (tips : List Nat)
    (k : Nat) (bid : Nat → Nat)
    (hne : tips.length ≠ 0)
    (hsync : env.isNodeSynced = true)
    (hbp : checkBackPressureFunctions env = false)
    (hcreate : ∀ j, env.createCheckpointOk j = true)
    (hk1 : 1 ≤ k) (hkN : k < (tips.length + 6) / 7)
    (hsend : ∀ j, j < k → env.sendCheckpoint j = some (bid j))
    (hfailk : env.sendCheckpoint k = none) :
    IssueCheckpoint coo env checkpointIndex lastCheckpointBlockID tips =
      ⟨.error .sendCheckpointFailed,
       (List.range (k + 1)).map (fun j =>
         removeDupsAndSort
           ((if j = 0 then lastCheckpointBlockID else bid (j - 1)) ::
             chunkAt tips j)),
       (List.range k).map (fun j =>
         Event.issuedCheckpointBlock checkpointIndex j ((tips.length + 6) / 7)
           (bid j))⟩ ∧
    CooError.isCritical .sendCheckpointFailed = false ∧
    ((List.range k).map (fun j =>
      Event.issuedCheckpointBlock checkpointIndex j ((tips.length + 6) / 7)
        (bid j))).length = k := by
  refine ⟨?_, rfl, by simp⟩
  unfold IssueCheckpoint
  rw [if_neg hne, if_neg (by simp [hsync]), if_neg (by simp [hbp])]
  rw [issueCheckpointChunks_sendFail env tips checkpointIndex
    ((tips.length + 6) / 7) bid hcreate k ((tips.length + 6) / 7) 0
    lastCheckpointBlockID hkN
    (fun j hj => by rw [Nat.zero_add]; exact hsend j hj)
    (by rw [Nat.zero_add]; exact hfailk)]
  simp only [CheckpointResult.mk.injEq]
  refine ⟨trivial, ?_, ?_⟩
  · refine List.map_congr_left (fun j hj => ?_)
    rw [Nat.zero_add]
  · refine List.map_congr_left (fun j hj => ?_)
    rw [Nat.zero_add]

/-- Witness for C10: 15 tips, the first broadcast succeeds and the second
fails. The first record is broadcast with its event fired, the second record
is built but not broadcast, and the soft send error comes back. -/
theorem issueCheckpoint_partial_broadcast_witness :
    IssueCheckpoint cooBase
        { envBase with sendCheckpoint :=
          fun i => if i < 1 then some (1000 + i) else none } 4 99
        [1, 2, 3, 4, 5, 6, 7, 8, 9, 10, 11, 12, 13, 14, 15] =
      ⟨.error .sendCheckpointFailed,
       [[1, 2, 3, 4, 5, 6, 7, 99], [8, 9, 10, 11, 12, 13, 14, 1000]],
       [Event.issuedCheckpointBlock 4 0 3 1000]⟩ ∧
    CooError.isCritical .sendCheckpointFailed = false := by
  have h := issueCheckpoint_partial_broadcast cooBase
    { envBase with sendCheckpoint :=
      fun i => if i < 1 then some (1000 + i) else none } 4 99
    [1, 2, 3, 4, 5, 6, 7, 8, 9, 10, 11, 12, 13, 14, 15] 1 (fun j => 1000 + j)
    (by decide) rfl rfl (fun j => rfl) (le_refl 1) (by decide)
    (fun j hj => by
      have hj0 : j = 0 := by omega
      subst hj0
      rfl)
    rfl
  exact ⟨h.1.trans (by rfl), h.2.1⟩

/-- C4 counterexample: a concrete checkpoint run in which the send-block
callback fails; IssueCheckpoint surfaces the failure as a soft error, not a
critical one, refuting the claim that send-block errors are wrapped critical
in both pipelines. -/
theorem checkpoint_send_error_not_critical :
    (IssueCheckpoint cooBase
      { envBase with sendCheckpoint := fun _ => none } 1 99 [1]).res =
      .error .sendCheckpointFailed ∧
    CooError.isCritical .sendCheckpointFailed = false :=
  ⟨rfl, rfl⟩

/-- C4 amended: every send-block failure in the milestone pipeline
(createAndSendMilestone, whenever the pipeline reaches the broadcast step) is
wrapped as the critical send error, while every send-block failure in the
checkpoint pipeline (IssueCheckpoint, here failing at the first chunk) is
wrapped as a soft error. -/
theorem sendBlock_error_classification :
    (∀ (coo : Coordinator) (env : Env) (fs : FS) (parents : List Nat)
      (newIdx prevID msID : Nat) (localRoots : MilestoneMerkleRoots),
      env.merkleRootFunc newIdx (u32 env.now) (removeDupsAndSort parents)
        prevID = some localRoots →
      (coo.quorumEnabled = true →
        checkMerkleTreeHash localRoots env.quorumGroups = none) →
      ¬((if coo.migratorConfigured then env.receipt else none).isSome ∧
        env.persistPreOk = false) →
      ¬((if coo.migratorConfigured then env.receipt else none).isSome ∧
        env.treasury = none) →
      env.createMilestoneOk = true →
      env.milestoneID = some msID →
      env.sendMilestone = none →
      (createAndSendMilestone coo env fs parents newIdx prevID).err =
        some .sendMilestoneFailed ∧
      CooError.isCritical .sendMilestoneFailed = true) ∧
    (∀ (coo : Coordinator) (env : Env) (checkpointIndex last : Nat)
      (tips : List Nat),
      tips.length ≠ 0 → env.isNodeSynced = true →
      checkBackPressureFunctions env = false →
      env.createCheckpointOk 0 = true → env.sendCheckpoint 0 = none →
      (IssueCheckpoint coo env checkpointIndex last tips).res =
        .error .sendCheckpointFailed ∧
      CooError.isCritical .sendCheckpointFailed = false) := by
  constructor
  · intro coo env fs parents newIdx prevID msID localRoots hm hq h1 h2 h3 h4 h5
    refine ⟨?_, rfl⟩
    unfold createAndSendMilestone
    rw [hm]
    dsimp only
    cases hqe : (if coo.quorumEnabled then
        checkMerkleTreeHash localRoots env.quorumGroups else none) with
    | some e =>
      exfalso
      by_cases hb : coo.quorumEnabled = true
      · rw [if_pos hb, hq hb] at hqe
        exact Option.noConfusion hqe
      · rw [if_neg hb] at hqe
        exact Option.noConfusion hqe
    | none =>
      dsimp only
      rw [createAndSendMilestoneTail_sendFail coo env fs newIdx _ msID
        h1 h2 h3 h4 h5]
  · intro coo env checkpointIndex last tips hne hsync hbp hc0 hf0
    refine ⟨?_, rfl⟩
    unfold IssueCheckpoint
    rw [if_neg hne, if_neg (by simp [hsync]), if_neg (by simp [hbp])]
    obtain ⟨m, hm⟩ : ∃ m, (tips.length + 6) / 7 = m + 1 :=
      ⟨(tips.length + 6) / 7 - 1, by omega⟩
    rw [hm]
    simp only [issueCheckpointChunks]
    rw [if_neg (by simp [hc0]), hf0]

/-- Witness for the amended C4: a failing milestone broadcast comes back
critical, a failing checkpoint broadcast comes back soft. -/
theorem sendBlock_error_classification_witness :
    (createAndSendMilestone cooBase { envBase with sendMilestone := none }
      fsBase [3] 6 11).err = some .sendMilestoneFailed ∧
    CooError.isCritical .sendMilestoneFailed = true ∧
    (IssueCheckpoint cooBase { envBase with sendCheckpoint := fun _ => none }
      1 99 [1]).res = .error .sendCheckpointFailed ∧
    CooError.isCritical .sendCheckpointFailed = false := by
  obtain ⟨ha, hb⟩ := sendBlock_error_classification
  obtain ⟨ha1, ha2⟩ := ha cooBase { envBase with sendMilestone := none } fsBase
    [3] 6 11 7 roots0 rfl (fun h => absurd h (by decide))
    (by decide) (by decide) rfl rfl rfl
  obtain ⟨hb1, hb2⟩ := hb cooBase
    { envBase with sendCheckpoint := fun _ => none } 1 99 [1]
    (by decide) rfl rfl rfl rfl
  exact ⟨ha1, ha2, hb1, hb2⟩

end InxCoordinator
